import Mathlib

/-!
# User-profile service of the_monkeys (`services/service.go`)

Shallow embedding of the gRPC handlers of `UserSvc` and of the merge function
`MapUserUpdateData`, followed by the properties stated about them.

Conventions of the embedding

* A Go pointer is an `Option` (`none` is `nil`); reading or writing a field
  through `nil` is the run-time panic `Panic.nilDereference`.
* A Go result pair `(value, err)` is a pair of `Option`s, `err = none` being
  `err == nil`.
* The store `database.UserDb` is an interface whose implementation is not part
  of the service; it is a record of functions over a store state `σ`.
* Every call of the store and every log line is appended to a trace, so that
  "the handler did not call X" is a statement about the trace.
* The Go standard library functions `time.Parse` and `Time.String` and the
  constant `constants.DateTimeFormat` are parameters (`Env`).
-/

namespace Monkeys

/-! ## Data model -/

/-- Instant held by a Go `time.Time`, counted in nanoseconds from the zero
value `Time{}` (January 1, year 1, 00:00:00 UTC). -/
structure Time where
  sinceZero : Int
  deriving DecidableEq, Repr

/-- Zero value `Time{}`. -/
def Time.zero : Time := ⟨0⟩

/-- Go's `sql.NullString`. -/
structure NullString where
  String : String
  Valid : Bool
  deriving DecidableEq, Repr

/-- Go's `sql.NullTime`. -/
structure NullTime where
  Time : Time
  Valid : Bool
  deriving DecidableEq, Repr

/-- Full stored profile `models.UserProfileRes`, with the fields the service
reads or writes. -/
structure models.UserProfileRes where
  AccountId : String
  Username : String
  FirstName : String
  LastName : String
  DateOfBirth : NullTime
  Bio : NullString
  AvatarUrl : NullString
  Address : NullString
  ContactNumber : NullString
  UserStatus : String
  deriving DecidableEq, Repr

/-- Public profile row returned by the store's `GetUserProfile`. -/
structure models.UserProfile where
  UserName : String
  FirstName : String
  LastName : String
  Bio : NullString
  AvatarUrl : NullString
  deriving DecidableEq, Repr

/-- Request message `pb.UpdateUserProfileReq`. -/
structure pb.UpdateUserProfileReq where
  Username : String
  FirstName : String
  LastName : String
  Bio : String
  DateOfBirth : String
  Address : String
  ContactNumber : String
  Partial : Bool
  deriving DecidableEq, Repr

/-- Run-time faults of the Go program. -/
inductive Panic where
  | nilDereference
  deriving DecidableEq, Repr

/-- Library and configuration the service is linked against.
`timeParse layout value` is `time.Parse(layout, value)`: `some t` when it
returns `(t, nil)`, `none` when it returns an error, in which case the `Time`
it returns is the zero value. `timeString` is the method `Time.String`. -/
structure Env where
  DateTimeFormat : String
  timeParse : String → String → Option Time
  timeString : Time → String

/-- First component of the pair returned by `time.Parse`. -/
def Env.parsedTime (env : Env) (layout value : String) : Time :=
  match env.timeParse layout value with
  | some t => t
  | none => Time.zero

/-! ## The merge -/

/-- Assignment through a pointer, `p.field = v`: panics on `nil`. -/
def assignVia {α : Type} (p : Option α) (set : α → α) : Except Panic (Option α) :=
  match p with
  | none => .error Panic.nilDereference
  | some d => .ok (some (set d))

/-- `MapUserUpdateData(req, dbUserInfo)`: the record behind `dbUserInfo` is
updated in place, one guarded assignment after the other, and the same pointer
is returned. -/
def MapUserUpdateData (env : Env) (req : pb.UpdateUserProfileReq)
    (dbUserInfo : Option models.UserProfileRes) :
    Except Panic (Option models.UserProfileRes) := do
  let p ← if req.Username ≠ "" then
      assignVia dbUserInfo (fun d => { d with Username := req.Username })
    else pure dbUserInfo
  let p ← if req.FirstName ≠ "" then
      assignVia p (fun d => { d with FirstName := req.FirstName })
    else pure p
  let p ← if req.LastName ≠ "" then
      assignVia p (fun d => { d with LastName := req.LastName })
    else pure p
  let p ← if req.Bio ≠ "" then
      assignVia p (fun d => { d with Bio := { d.Bio with String := req.Bio } })
    else pure p
  let p ← if req.DateOfBirth ≠ "" then
      let time := env.parsedTime env.DateTimeFormat req.DateOfBirth
      assignVia p (fun d => { d with DateOfBirth := { d.DateOfBirth with Time := time } })
    else pure p
  let p ← if req.Address ≠ "" then
      assignVia p (fun d => { d with Address := { d.Address with String := req.Address } })
    else pure p
  let p ← if req.ContactNumber ≠ "0" then
      assignVia p (fun d =>
        { d with ContactNumber := { d.ContactNumber with String := req.ContactNumber } })
    else pure p
  return p

/-! ## Errors -/

/-- gRPC status codes (`google.golang.org/grpc/codes`) that can be observed on
the errors of this service. -/
inductive codes where
  | OK
  | Unknown
  | NotFound
  | Internal
  deriving DecidableEq, Repr

/-- Error value handed back by the store, seen through the three observations
that the service and its callers make of it: the text of `err.Error()`,
whether `errors.Is(err, sql.ErrNoRows)` holds, and the code of the gRPC status
it carries (`none` when it carries no status). -/
structure StoreError where
  text : String
  isErrNoRows : Bool
  grpcStatus : Option codes
  deriving DecidableEq, Repr

/-- Error values returned by the handlers. -/
inductive GoError where
  /-- an error of the store, returned as it was received -/
  | store (e : StoreError)
  /-- `status.Errorf(c, format)` without operands; its description is
  `fmt.Sprintf(format)` -/
  | statusErrorf (c : codes) (format : String)
  /-- `errors.New(text)` -/
  | errorsNew (text : String)
  deriving DecidableEq, Repr

/-- `status.Code(err)` for a non-nil error: the code of the status the error
carries, `codes.Unknown` for an error that carries none. -/
def GoError.Code : GoError → codes
  | .store e => e.grpcStatus.getD codes.Unknown
  | .statusErrorf c _ => c
  | .errorsNew _ => codes.Unknown

/-! ## Messages -/

/-- Request message `pb.UserProfileReq`. -/
structure pb.UserProfileReq where
  Username : String
  IsPrivate : Bool
  deriving DecidableEq, Repr

/-- Response message `pb.UserProfileRes`; a field that a composite literal
does not mention holds its zero value, the empty string. -/
structure pb.UserProfileRes where
  AccountId : String := ""
  Username : String := ""
  FirstName : String := ""
  LastName : String := ""
  DateOfBirth : String := ""
  Bio : String := ""
  AvatarUrl : String := ""
  Address : String := ""
  ContactNumber : String := ""
  UserStatus : String := ""
  deriving DecidableEq, Repr

/-- Response message `pb.UpdateUserProfileRes`. -/
structure pb.UpdateUserProfileRes where
  Username : String := ""
  deriving DecidableEq, Repr

/-- Request message `pb.DeleteUserProfileReq`. -/
structure pb.DeleteUserProfileReq where
  Username : String
  deriving DecidableEq, Repr

/-- Response message `pb.DeleteUserProfileRes`. -/
structure pb.DeleteUserProfileRes where
  Success : String := ""
  Status : String := ""
  deriving DecidableEq, Repr

/-- Response message `pb.GetTopicsResponse`; the handler passes it through
without looking inside. -/
structure pb.GetTopicsResponse where
  Topics : List String
  deriving DecidableEq, Repr

/-- Response message `pb.GetAllCategoriesRes`; the handler passes it through
without looking inside. -/
structure pb.GetAllCategoriesRes where
  Category : List String
  deriving DecidableEq, Repr

/-! ## Store, trace and outcomes -/

/-- Interface `database.UserDb`, over a store state `σ`. Each method returns
what the Go method returns together with the next store state. The value that
`CheckIfUsernameExist` returns beside the error is dropped by every caller and
is left out. -/
structure UserDb (σ : Type) where
  CheckIfUsernameExist : String → σ → Option StoreError × σ
  GetUserProfile : String → σ → (Option models.UserProfile × Option StoreError) × σ
  GetMyProfile : String → σ → (Option models.UserProfileRes × Option StoreError) × σ
  UpdateUserProfile : String → Option models.UserProfileRes → σ → Option StoreError × σ
  DeleteUserProfile : String → σ → Option StoreError × σ
  GetAllTopicsFromDb : σ → (Option pb.GetTopicsResponse × Option StoreError) × σ
  GetAllCategories : σ → (Option pb.GetAllCategoriesRes × Option StoreError) × σ

/-- Severity of a log line. -/
inductive Level where
  | info
  | error
  deriving DecidableEq, Repr

/-- Observable steps of a handler: a log line (its format string, operands
left out) or a call of a store method with its arguments. -/
inductive Event where
  | log (lvl : Level) (format : String)
  | CheckIfUsernameExist (username : String)
  | GetUserProfile (username : String)
  | GetMyProfile (username : String)
  | UpdateUserProfile (username : String) (user : Option models.UserProfileRes)
  | DeleteUserProfile (username : String)
  | GetAllTopicsFromDb
  | GetAllCategories
  deriving DecidableEq, Repr

/-- State a handler runs in: the store and the trace of what happened so far. -/
structure World (σ : Type) where
  db : σ
  trace : List Event

/-- Append a log line to the trace. -/
def World.log {σ : Type} (w : World σ) (lvl : Level) (format : String) : World σ :=
  { w with trace := w.trace ++ [Event.log lvl format] }

/-- Record a store call and move to the store state it produced. -/
def World.called {σ : Type} (w : World σ) (call : Event) (db : σ) : World σ :=
  { db := db, trace := w.trace ++ [call] }

deriving instance DecidableEq for Except

/-- What a handler does: it returns the Go pair `(res, err)` or it panics. -/
inductive Outcome (α : Type) where
  | ret (res : Option α) (err : Option GoError)
  | panic (p : Panic)
  deriving DecidableEq, Repr

/-- Service `UserSvc`; its logger is the trace of the `World`. -/
structure UserSvc (σ : Type) where
  dbConn : UserDb σ

/-! ## Handlers -/

/-- `UserSvc.GetUserProfile`. -/
def UserSvc.GetUserProfile {σ : Type} (us : UserSvc σ) (env : Env) (req : pb.UserProfileReq)
    (w : World σ) : Outcome pb.UserProfileRes × World σ :=
  let w := w.log Level.info "user %v has requested profile info."
  if !req.IsPrivate then
    match us.dbConn.GetUserProfile req.Username w.db with
    | ((userProfile, err), db) =>
      let w := w.called (Event.GetUserProfile req.Username) db
      match err with
      | some err =>
        let w := w.log Level.error "the user doesn't exists: %v"
        (.ret none (some (.statusErrorf codes.NotFound
          ("user " ++ req.Username ++ " doesn't exist: " ++ err.text))), w)
      | none =>
        match userProfile with
        | none => (.panic Panic.nilDereference, w)
        | some userProfile =>
          (.ret (some {
            Username := userProfile.UserName
            FirstName := userProfile.FirstName
            LastName := userProfile.LastName
            Bio := userProfile.Bio.String
            AvatarUrl := userProfile.AvatarUrl.String }) none, w)
  else
    match us.dbConn.CheckIfUsernameExist req.Username w.db with
    | (err, db) =>
      let w := w.called (Event.CheckIfUsernameExist req.Username) db
      match err with
      | some err =>
        let w := w.log Level.error "the user doesn't exists: %v"
        (.ret none (some (.store err)), w)
      | none =>
        match us.dbConn.GetMyProfile req.Username w.db with
        | ((userDetails, err), db) =>
          let w := w.called (Event.GetMyProfile req.Username) db
          match err with
          | some err =>
            let w := w.log Level.error "error while finding the user profile: %v"
            (.ret none (some (.store err)), w)
          | none =>
            match userDetails with
            | none => (.panic Panic.nilDereference, w)
            | some userDetails =>
              (.ret (some {
                AccountId := userDetails.AccountId
                Username := userDetails.Username
                FirstName := userDetails.FirstName
                LastName := userDetails.LastName
                DateOfBirth := env.timeString userDetails.DateOfBirth.Time
                Bio := userDetails.Bio.String
                AvatarUrl := userDetails.AvatarUrl.String
                Address := userDetails.Address.String
                UserStatus := userDetails.UserStatus }) none, w)

/-- Second half of `UserSvc.UpdateUserProfile`, from the comment
`// Map the user` on: merge, log, persist, answer. The test `err != nil` that
follows the merge in the source reads an `err` that is `nil` at that point. -/
def UserSvc.UpdateUserProfile.mapAndUpdate {σ : Type} (us : UserSvc σ) (env : Env)
    (req : pb.UpdateUserProfileReq) (dbUserInfo : Option models.UserProfileRes)
    (w : World σ) : Outcome pb.UpdateUserProfileRes × World σ :=
  match MapUserUpdateData env req dbUserInfo with
  | .error p => (.panic p, w)
  | .ok mappedDBUser =>
    let w := w.log Level.info "mappedDBUser: %+v\n"
    match us.dbConn.UpdateUserProfile req.Username mappedDBUser w.db with
    | (err, db) =>
      let w := w.called (Event.UpdateUserProfile req.Username mappedDBUser) db
      match err with
      | some err => (.ret none (some (.store err)), w)
      | none =>
        match mappedDBUser with
        | none => (.panic Panic.nilDereference, w)
        | some mappedDBUser => (.ret (some { Username := mappedDBUser.Username }) none, w)

/-- `UserSvc.UpdateUserProfile`. -/
def UserSvc.UpdateUserProfile {σ : Type} (us : UserSvc σ) (env : Env)
    (req : pb.UpdateUserProfileReq) (w : World σ) :
    Outcome pb.UpdateUserProfileRes × World σ :=
  let w := w.log Level.info "user %s is updating the profile."
  match us.dbConn.CheckIfUsernameExist req.Username w.db with
  | (err, db) =>
    let w := w.called (Event.CheckIfUsernameExist req.Username) db
    match err with
    | some err =>
      let w := w.log Level.error "the user doesn't exists: %v"
      (.ret none (some (.store err)), w)
    | none =>
      if req.Partial then
        match us.dbConn.GetMyProfile req.Username w.db with
        | ((dbUserInfo, err), db) =>
          let w := w.called (Event.GetMyProfile req.Username) db
          match err with
          | some err =>
            let w := w.log Level.error "error while finding the user profile: %v"
            (.ret none (some (.store err)), w)
          | none => UserSvc.UpdateUserProfile.mapAndUpdate us env req dbUserInfo w
      else
        UserSvc.UpdateUserProfile.mapAndUpdate us env req none w

/-- `UserSvc.DeleteUserProfile`. -/
def UserSvc.DeleteUserProfile {σ : Type} (us : UserSvc σ) (req : pb.DeleteUserProfileReq)
    (w : World σ) : Outcome pb.DeleteUserProfileRes × World σ :=
  let w := w.log Level.info "user %s has requested to delete the  profile."
  match us.dbConn.CheckIfUsernameExist req.Username w.db with
  | (err, db) =>
    let w := w.called (Event.CheckIfUsernameExist req.Username) db
    match err with
    | some err =>
      let w := w.log Level.error "the user doesn't exists: %v"
      (.ret none (some (.store err)), w)
    | none =>
      match us.dbConn.DeleteUserProfile req.Username w.db with
      | (err, db) =>
        let w := w.called (Event.DeleteUserProfile req.Username) db
        match err with
        | some err =>
          let w := w.log Level.error "could not delete the user profile: %v"
          (.ret none (some (.store err)), w)
        | none =>
          (.ret (some { Success := "user has been deleted successfully", Status := "200" })
            none, w)

/-- `UserSvc.GetAllTopics`. -/
def UserSvc.GetAllTopics {σ : Type} (us : UserSvc σ) (w : World σ) :
    Outcome pb.GetTopicsResponse × World σ :=
  let w := w.log Level.info "getting all the topics"
  match us.dbConn.GetAllTopicsFromDb w.db with
  | ((res, err), db) =>
    let w := w.called Event.GetAllTopicsFromDb db
    match err with
    | some err =>
      let w := if err.isErrNoRows then
          w.log Level.error "cannot find the topics in the database: %v"
        else w
      let w := w.log Level.error "error while querrying the topics: %v"
      (.ret none (some (.errorsNew "error while querrying the topics")), w)
    | none => (.ret res none, w)

/-- `UserSvc.GetAllCategories`. -/
def UserSvc.GetAllCategories {σ : Type} (us : UserSvc σ) (w : World σ) :
    Outcome pb.GetAllCategoriesRes × World σ :=
  let w := w.log Level.info "getting all the Description and Categories"
  match us.dbConn.GetAllCategories w.db with
  | ((res, err), db) =>
    let w := w.called Event.GetAllCategories db
    match err with
    | some err =>
      if err.isErrNoRows then
        let w := w.log Level.error "no Categories and Description found in the database: %v"
        (.ret none (some (.errorsNew "no Categories found")), w)
      else
        let w := w.log Level.error "error while querying the Categories: %v"
        (.ret none (some (.errorsNew "error while querying the categories")), w)
    | none => (.ret res none, w)

/-! ## Fixtures -/

/-- Sample library: the layout of Go's `time.DateTime`, a parser that knows
two well-formed values and rejects everything else, and a printer that is not
looked into. -/
def sampleEnv : Env where
  DateTimeFormat := "2006-01-02 15:04:05"
  timeParse := fun _ value =>
    if value = "0001-01-02 00:00:00" then some ⟨86400000000000⟩
    else if value = "0001-01-01 00:00:01" then some ⟨1000000000⟩
    else none
  timeString := fun t => "T+" ++ toString t.sinceZero ++ "ns"

/-- Stored profile of the example of the specification (`ana`), completed with
values for the fields the example is silent about. -/
def ana : models.UserProfileRes where
  AccountId := "acc-1"
  Username := "ana"
  FirstName := "Ana"
  LastName := "Lima"
  DateOfBirth := ⟨⟨86400000000000⟩, true⟩
  Bio := ⟨"old", true⟩
  AvatarUrl := ⟨"ana.png", true⟩
  Address := ⟨"1 Main St", true⟩
  ContactNumber := ⟨"555", true⟩
  UserStatus := "active"

/-- Update request that carries the sentinel in every field. -/
def noChange : pb.UpdateUserProfileReq where
  Username := ""
  FirstName := ""
  LastName := ""
  Bio := ""
  DateOfBirth := ""
  Address := ""
  ContactNumber := "0"
  Partial := true

/-- Error of a store query that found no row: `sql.ErrNoRows`. -/
def sqlErrNoRows : StoreError where
  text := "sql: no rows in result set"
  isErrNoRows := true
  grpcStatus := none

/-- Error of a store that cannot be reached. -/
def connRefused : StoreError where
  text := "dial tcp: connection refused"
  isErrNoRows := false
  grpcStatus := none

/-- Store on which every call fails with the error `e`. -/
def failingDb (e : StoreError) : UserDb Unit where
  CheckIfUsernameExist := fun _ s => (some e, s)
  GetUserProfile := fun _ s => ((none, some e), s)
  GetMyProfile := fun _ s => ((none, some e), s)
  UpdateUserProfile := fun _ _ s => (some e, s)
  DeleteUserProfile := fun _ s => (some e, s)
  GetAllTopicsFromDb := fun s => ((none, some e), s)
  GetAllCategories := fun s => ((none, some e), s)

/-- Store held in memory: its state is the list of the stored profiles, looked
up by `Username`; a lookup that finds no row fails with `sql.ErrNoRows`. -/
def memDb : UserDb (List models.UserProfileRes) where
  CheckIfUsernameExist := fun u rows =>
    match rows.find? (fun x => x.Username == u) with
    | some _ => (none, rows)
    | none => (some sqlErrNoRows, rows)
  GetUserProfile := fun u rows =>
    match rows.find? (fun x => x.Username == u) with
    | some x => ((some ⟨x.Username, x.FirstName, x.LastName, x.Bio, x.AvatarUrl⟩, none), rows)
    | none => ((none, some sqlErrNoRows), rows)
  GetMyProfile := fun u rows =>
    match rows.find? (fun x => x.Username == u) with
    | some x => ((some x, none), rows)
    | none => ((none, some sqlErrNoRows), rows)
  UpdateUserProfile := fun u user rows =>
    match user with
    | some x => (none, rows.map (fun y => if y.Username == u then x else y))
    | none => (some connRefused, rows)
  DeleteUserProfile := fun u rows => (none, rows.filter (fun x => x.Username != u))
  GetAllTopicsFromDb := fun rows => ((some ⟨["art", "science"]⟩, none), rows)
  GetAllCategories := fun rows => ((some ⟨["tech"]⟩, none), rows)

/-- Service over the in-memory store. -/
def memSvc : UserSvc (List models.UserProfileRes) := ⟨memDb⟩

/-- World in which `ana` is the one stored profile and nothing has happened. -/
def anaWorld : World (List models.UserProfileRes) := ⟨[ana], []⟩

/-- Store that answers every call with `nil` and no error. -/
def acceptingDb : UserDb Unit where
  CheckIfUsernameExist := fun _ s => (none, s)
  GetUserProfile := fun _ s => ((none, none), s)
  GetMyProfile := fun _ s => ((none, none), s)
  UpdateUserProfile := fun _ _ s => (none, s)
  DeleteUserProfile := fun _ s => (none, s)
  GetAllTopicsFromDb := fun s => ((none, none), s)
  GetAllCategories := fun s => ((none, none), s)

/-- Request that leaves every field alone except ContactNumber, which it
carries as the empty string. -/
def emptyContact : pb.UpdateUserProfileReq := { noChange with ContactNumber := "" }

/-- Request that leaves every field alone except DateOfBirth, which it carries
as a text that is not a date. -/
def badDate : pb.UpdateUserProfileReq := { noChange with DateOfBirth := "not-a-date" }

/-- Public row of `ana`, as the in-memory store returns it. -/
def anaPublic : models.UserProfile :=
  ⟨"ana", "Ana", "Lima", ⟨"old", true⟩, ⟨"ana.png", true⟩⟩

/-- Full update (`Partial = false`) of `ana` that carries a new Bio. -/
def fullUpdate : pb.UpdateUserProfileReq :=
  { noChange with Username := "ana", Bio := "new", Partial := false }

/-! ## Properties of the merge -/

/-- On a record that is there, the merge does not panic and its result is the
record with each field replaced by the request's value when that value differs
from the field's sentinel. -/
theorem MapUserUpdateData_some (env : Env) (r : pb.UpdateUserProfileReq)
    (e : models.UserProfileRes) :
    MapUserUpdateData env r (some e) = .ok (some
      { AccountId := e.AccountId
        Username := if r.Username ≠ "" then r.Username else e.Username
        FirstName := if r.FirstName ≠ "" then r.FirstName else e.FirstName
        LastName := if r.LastName ≠ "" then r.LastName else e.LastName
        DateOfBirth := if r.DateOfBirth ≠ "" then
            { e.DateOfBirth with Time := env.parsedTime env.DateTimeFormat r.DateOfBirth }
          else e.DateOfBirth
        Bio := if r.Bio ≠ "" then { e.Bio with String := r.Bio } else e.Bio
        AvatarUrl := e.AvatarUrl
        Address := if r.Address ≠ "" then { e.Address with String := r.Address } else e.Address
        ContactNumber := if r.ContactNumber ≠ "0" then
            { e.ContactNumber with String := r.ContactNumber }
          else e.ContactNumber
        UserStatus := e.UserStatus }) := by
  unfold MapUserUpdateData
  by_cases h1 : r.Username = "" <;> by_cases h2 : r.FirstName = "" <;>
  by_cases h3 : r.LastName = "" <;> by_cases h4 : r.Bio = "" <;>
  by_cases h5 : r.DateOfBirth = "" <;> by_cases h6 : r.Address = "" <;>
  by_cases h7 : r.ContactNumber = "0" <;>
  simp [assignVia, h1, h2, h3, h4, h5, h6, h7, bind, Except.bind, pure, Except.pure]

/-- On `nil` the merge panics at the first assignment it has to make, and
returns `nil` when the request carries the sentinel in every field. -/
theorem MapUserUpdateData_nil (env : Env) (r : pb.UpdateUserProfileReq) :
    MapUserUpdateData env r none =
      if r.Username ≠ "" ∨ r.FirstName ≠ "" ∨ r.LastName ≠ "" ∨ r.Bio ≠ "" ∨
          r.DateOfBirth ≠ "" ∨ r.Address ≠ "" ∨ r.ContactNumber ≠ "0" then
        .error Panic.nilDereference
      else .ok none := by
  unfold MapUserUpdateData
  by_cases h1 : r.Username = "" <;> by_cases h2 : r.FirstName = "" <;>
  by_cases h3 : r.LastName = "" <;> by_cases h4 : r.Bio = "" <;>
  by_cases h5 : r.DateOfBirth = "" <;> by_cases h6 : r.Address = "" <;>
  by_cases h7 : r.ContactNumber = "0" <;>
  simp [assignVia, h1, h2, h3, h4, h5, h6, h7, bind, Except.bind, pure, Except.pure]

/-- C1. Merging a request into an existing profile succeeds, and every field
whose request value is the sentinel of that field (the empty string for
Username, FirstName, LastName, Bio, Address and DateOfBirth, the literal "0"
for ContactNumber) is in the merged record what it was in the existing one. -/
theorem merge_sentinel_keeps_field (env : Env) (r : pb.UpdateUserProfileReq)
    (e : models.UserProfileRes) :
    ∃ m, MapUserUpdateData env r (some e) = .ok (some m) ∧
      (r.Username = "" → m.Username = e.Username) ∧
      (r.FirstName = "" → m.FirstName = e.FirstName) ∧
      (r.LastName = "" → m.LastName = e.LastName) ∧
      (r.Bio = "" → m.Bio = e.Bio) ∧
      (r.Address = "" → m.Address = e.Address) ∧
      (r.DateOfBirth = "" → m.DateOfBirth = e.DateOfBirth) ∧
      (r.ContactNumber = "0" → m.ContactNumber = e.ContactNumber) := by
  refine ⟨_, MapUserUpdateData_some env r e, ?_, ?_, ?_, ?_, ?_, ?_, ?_⟩ <;>
    intro h <;> simp [h]

/-- The example of the specification: `ana` with Bio "old" and ContactNumber
"555", updated with Bio "new" and ContactNumber "0", keeps her username and
her contact number. -/
theorem merge_sentinel_keeps_field_example :
    ∃ m, MapUserUpdateData sampleEnv { noChange with Bio := "new" } (some ana) = .ok (some m) ∧
      m.Username = "ana" ∧ m.ContactNumber.String = "555" := by
  obtain ⟨m, hm, hu, -, -, -, -, -, hc⟩ :=
    merge_sentinel_keeps_field sampleEnv { noChange with Bio := "new" } ana
  exact ⟨m, hm, by rw [hu rfl]; rfl, by rw [hc rfl]; rfl⟩

/-- C2. The merge is idempotent: merging the same request into the merged
record gives the merged record again, in every field. -/
theorem merge_idempotent (env : Env) (r : pb.UpdateUserProfileReq)
    (e : models.UserProfileRes) :
    ∃ m, MapUserUpdateData env r (some e) = .ok (some m) ∧
      MapUserUpdateData env r (some m) = .ok (some m) := by
  refine ⟨_, MapUserUpdateData_some env r e, ?_⟩
  rw [MapUserUpdateData_some]
  by_cases h1 : r.Username = "" <;> by_cases h2 : r.FirstName = "" <;>
  by_cases h3 : r.LastName = "" <;> by_cases h4 : r.Bio = "" <;>
  by_cases h5 : r.DateOfBirth = "" <;> by_cases h6 : r.Address = "" <;>
  by_cases h7 : r.ContactNumber = "0" <;>
  simp [h1, h2, h3, h4, h5, h6, h7]

/-- C3, as stated, fails for ContactNumber: a request whose ContactNumber is
the empty string empties the stored contact number "555"; the merged value is
neither the stored one nor a non-empty value of the request. -/
theorem merge_empties_contact_number :
    MapUserUpdateData sampleEnv emptyContact (some ana)
        = .ok (some { ana with ContactNumber := ⟨"", true⟩ }) ∧
      ana.ContactNumber.String ≠ "" ∧
      ¬ ((⟨"", true⟩ : NullString).String = ana.ContactNumber.String ∨
          ((⟨"", true⟩ : NullString).String = emptyContact.ContactNumber ∧
            emptyContact.ContactNumber ≠ "")) := by
  decide

/-- C3, amended. In the merged record each of Username, FirstName, LastName,
Bio and Address is the existing value or a non-empty value of the request, so
none of these is emptied; ContactNumber is the existing value or a value of
the request that differs from "0". -/
theorem merge_overwrites_only_with_non_sentinel (env : Env) (r : pb.UpdateUserProfileReq)
    (e : models.UserProfileRes) :
    ∃ m, MapUserUpdateData env r (some e) = .ok (some m) ∧
      (m.Username = e.Username ∨ (m.Username = r.Username ∧ r.Username ≠ "")) ∧
      (m.FirstName = e.FirstName ∨ (m.FirstName = r.FirstName ∧ r.FirstName ≠ "")) ∧
      (m.LastName = e.LastName ∨ (m.LastName = r.LastName ∧ r.LastName ≠ "")) ∧
      (m.Bio.String = e.Bio.String ∨ (m.Bio.String = r.Bio ∧ r.Bio ≠ "")) ∧
      (m.Address.String = e.Address.String ∨
        (m.Address.String = r.Address ∧ r.Address ≠ "")) ∧
      (m.ContactNumber.String = e.ContactNumber.String ∨
        (m.ContactNumber.String = r.ContactNumber ∧ r.ContactNumber ≠ "0")) ∧
      (e.Username ≠ "" → m.Username ≠ "") ∧
      (e.FirstName ≠ "" → m.FirstName ≠ "") ∧
      (e.LastName ≠ "" → m.LastName ≠ "") ∧
      (e.Bio.String ≠ "" → m.Bio.String ≠ "") ∧
      (e.Address.String ≠ "" → m.Address.String ≠ "") := by
  refine ⟨_, MapUserUpdateData_some env r e, ?_, ?_, ?_, ?_, ?_, ?_, ?_, ?_, ?_, ?_, ?_⟩
  · by_cases h : r.Username = "" <;> simp [h]
  · by_cases h : r.FirstName = "" <;> simp [h]
  · by_cases h : r.LastName = "" <;> simp [h]
  · by_cases h : r.Bio = "" <;> simp [h]
  · by_cases h : r.Address = "" <;> simp [h]
  · by_cases h : r.ContactNumber = "0" <;> simp [h]
  · by_cases h : r.Username = "" <;> simp [h]
  · by_cases h : r.FirstName = "" <;> simp [h]
  · by_cases h : r.LastName = "" <;> simp [h]
  · by_cases h : r.Bio = "" <;> simp [h]
  · by_cases h : r.Address = "" <;> simp [h]

/-- A date of birth that does not parse replaces the stored time by the zero
time; the validity flag of the stored date is left as it was. -/
theorem merge_unparsable_date (env : Env) (r : pb.UpdateUserProfileReq)
    (e : models.UserProfileRes) (hne : r.DateOfBirth ≠ "")
    (hbad : env.timeParse env.DateTimeFormat r.DateOfBirth = none) :
    ∃ m, MapUserUpdateData env r (some e) = .ok (some m) ∧
      m.DateOfBirth = { Time := Time.zero, Valid := e.DateOfBirth.Valid } := by
  refine ⟨_, MapUserUpdateData_some env r e, ?_⟩
  simp [hne, Env.parsedTime, hbad]

/-- C9 at a failing input: the request's date of birth "not-a-date" is not
empty and does not parse, the merge reports nothing, and the stored date of
birth of `ana` (one day after the zero time) is replaced by the zero time. -/
theorem merge_bad_date_resets_stored_date :
    badDate.DateOfBirth ≠ "" ∧
      sampleEnv.timeParse sampleEnv.DateTimeFormat badDate.DateOfBirth = none ∧
      MapUserUpdateData sampleEnv badDate (some ana)
        = .ok (some { ana with DateOfBirth := ⟨Time.zero, true⟩ }) ∧
      ana.DateOfBirth ≠ ⟨Time.zero, true⟩ := by
  decide

/-! ## Properties of the handlers -/

/-- C4. When the store's public lookup of the requested username returns a row
without error, the public read returns, without error, a response whose
Username, FirstName, LastName, Bio and AvatarUrl are those of the row and whose
AccountId, Address, ContactNumber, DateOfBirth and UserStatus hold their zero
value. -/
theorem GetUserProfile_public_view {σ : Type} (us : UserSvc σ) (env : Env)
    (req : pb.UserProfileReq) (w : World σ) (row : models.UserProfile) (db : σ)
    (hpub : req.IsPrivate = false)
    (hrow : us.dbConn.GetUserProfile req.Username w.db = ((some row, none), db)) :
    (us.GetUserProfile env req w).1 = .ret (some
      { AccountId := ""
        Username := row.UserName
        FirstName := row.FirstName
        LastName := row.LastName
        DateOfBirth := ""
        Bio := row.Bio.String
        AvatarUrl := row.AvatarUrl.String
        Address := ""
        ContactNumber := ""
        UserStatus := "" }) none := by
  simp [UserSvc.GetUserProfile, hpub, World.log, World.called, hrow]

/-- The public read of `ana` from the in-memory store: the lookup succeeds
and the response holds the five public fields only. -/
theorem GetUserProfile_public_view_ana :
    memSvc.dbConn.GetUserProfile "ana" anaWorld.db = ((some anaPublic, none), [ana]) ∧
      (memSvc.GetUserProfile sampleEnv ⟨"ana", false⟩ anaWorld).1 = .ret (some
        { AccountId := "", Username := "ana", FirstName := "Ana", LastName := "Lima",
          DateOfBirth := "", Bio := "old", AvatarUrl := "ana.png", Address := "",
          ContactNumber := "", UserStatus := "" }) none :=
  ⟨by decide,
    GetUserProfile_public_view memSvc sampleEnv ⟨"ana", false⟩ anaWorld anaPublic [ana] rfl
      (by decide)⟩

/-- C5, as stated, fails for ContactNumber: the private read of `ana`, whose
stored contact number is "555", returns a response with an empty
ContactNumber. -/
theorem GetUserProfile_private_drops_contact_number :
    ana.ContactNumber.String = "555" ∧
      (memSvc.GetUserProfile sampleEnv ⟨"ana", true⟩ anaWorld).1 = .ret (some
        { AccountId := "acc-1", Username := "ana", FirstName := "Ana", LastName := "Lima",
          DateOfBirth := "T+86400000000000ns", Bio := "old", AvatarUrl := "ana.png",
          Address := "1 Main St", ContactNumber := "", UserStatus := "active" }) none := by
  decide

/-- C5, amended. When the existence check passes and the store returns the full
record, the private read returns, without error, the public fields and the
stored AccountId, Address and UserStatus, the stored date of birth as printed
by `Time.String`, and a ContactNumber that holds its zero value. -/
theorem GetUserProfile_private_view {σ : Type} (us : UserSvc σ) (env : Env)
    (req : pb.UserProfileReq) (w : World σ) (user : models.UserProfileRes) (db1 db2 : σ)
    (hpriv : req.IsPrivate = true)
    (hchk : us.dbConn.CheckIfUsernameExist req.Username w.db = (none, db1))
    (hrow : us.dbConn.GetMyProfile req.Username db1 = ((some user, none), db2)) :
    (us.GetUserProfile env req w).1 = .ret (some
      { AccountId := user.AccountId
        Username := user.Username
        FirstName := user.FirstName
        LastName := user.LastName
        DateOfBirth := env.timeString user.DateOfBirth.Time
        Bio := user.Bio.String
        AvatarUrl := user.AvatarUrl.String
        Address := user.Address.String
        ContactNumber := ""
        UserStatus := user.UserStatus }) none := by
  simp [UserSvc.GetUserProfile, hpriv, World.log, World.called, hchk, hrow]

/-- The private read of `ana` from the in-memory store. -/
theorem GetUserProfile_private_view_ana :
    memSvc.dbConn.CheckIfUsernameExist "ana" anaWorld.db = (none, [ana]) ∧
      memSvc.dbConn.GetMyProfile "ana" [ana] = ((some ana, none), [ana]) ∧
      (memSvc.GetUserProfile sampleEnv ⟨"ana", true⟩ anaWorld).1 = .ret (some
        { AccountId := ana.AccountId
          Username := ana.Username
          FirstName := ana.FirstName
          LastName := ana.LastName
          DateOfBirth := sampleEnv.timeString ana.DateOfBirth.Time
          Bio := ana.Bio.String
          AvatarUrl := ana.AvatarUrl.String
          Address := ana.Address.String
          ContactNumber := ""
          UserStatus := ana.UserStatus }) none :=
  ⟨by decide, by decide,
    GetUserProfile_private_view memSvc sampleEnv ⟨"ana", true⟩ anaWorld ana [ana] [ana] rfl
      (by decide) (by decide)⟩

/-- On the public path a failed lookup is answered with no profile and an
error of code NotFound, whatever the store's error is. -/
theorem GetUserProfile_public_absent {σ : Type} (us : UserSvc σ) (env : Env)
    (req : pb.UserProfileReq) (w : World σ) (row : Option models.UserProfile)
    (err : StoreError) (db : σ) (hpub : req.IsPrivate = false)
    (hrow : us.dbConn.GetUserProfile req.Username w.db = ((row, some err), db)) :
    ∃ e, (us.GetUserProfile env req w).1 = .ret none (some e) ∧ e.Code = codes.NotFound := by
  simp [UserSvc.GetUserProfile, hpub, World.log, World.called, hrow, GoError.Code]

/-- On the private path a failed existence check is answered with no profile
and the store's own error, whose code is that of the status it carries, or
Unknown when it carries none. -/
theorem GetUserProfile_private_absent {σ : Type} (us : UserSvc σ) (env : Env)
    (req : pb.UserProfileReq) (w : World σ) (err : StoreError) (db : σ)
    (hpriv : req.IsPrivate = true)
    (hchk : us.dbConn.CheckIfUsernameExist req.Username w.db = (some err, db)) :
    (us.GetUserProfile env req w).1 = .ret none (some (.store err)) ∧
      (GoError.store err).Code = err.grpcStatus.getD codes.Unknown := by
  simp [UserSvc.GetUserProfile, hpriv, World.log, World.called, hchk, GoError.Code]

/-- C6 at a failing input: the username "ghost" is not in the store, the
existence check fails with `sql.ErrNoRows`, and the private read returns that
error as it is; its code is Unknown, not NotFound. The public read of the same
username returns an error of code NotFound. -/
theorem GetUserProfile_private_absent_not_NotFound :
    (memSvc.GetUserProfile sampleEnv ⟨"ghost", true⟩ anaWorld).1
        = .ret none (some (.store sqlErrNoRows)) ∧
      (GoError.store sqlErrNoRows).Code = codes.Unknown ∧
      (GoError.store sqlErrNoRows).Code ≠ codes.NotFound ∧
      (memSvc.GetUserProfile sampleEnv ⟨"ghost", false⟩ anaWorld).1
        = .ret none (some (.statusErrorf codes.NotFound
            "user ghost doesn't exist: sql: no rows in result set")) := by
  decide

/-- C7. When the existence check fails, the delete handler returns no
confirmation and the check's error, and the only store call it has made is the
existence check: the store's delete is not in the trace and the store is in
the state the check left it in. When the existence check and the store's
delete both succeed, it returns the fixed confirmation and no error. -/
theorem DeleteUserProfile_contract {σ : Type} (us : UserSvc σ)
    (req : pb.DeleteUserProfileReq) (w : World σ) :
    (∀ err db, us.dbConn.CheckIfUsernameExist req.Username w.db = (some err, db) →
      (us.DeleteUserProfile req w).1 = .ret none (some (.store err)) ∧
      (us.DeleteUserProfile req w).2.trace = w.trace ++
        [Event.log Level.info "user %s has requested to delete the  profile.",
         Event.CheckIfUsernameExist req.Username,
         Event.log Level.error "the user doesn't exists: %v"] ∧
      (∀ u, Event.DeleteUserProfile u ∉ (us.DeleteUserProfile req w).2.trace.drop
        w.trace.length) ∧
      (us.DeleteUserProfile req w).2.db = db) ∧
    (∀ db1 db2, us.dbConn.CheckIfUsernameExist req.Username w.db = (none, db1) →
      us.dbConn.DeleteUserProfile req.Username db1 = (none, db2) →
      (us.DeleteUserProfile req w).1 = .ret (some
        { Success := "user has been deleted successfully", Status := "200" }) none) := by
  constructor
  · intro err db hchk
    simp [UserSvc.DeleteUserProfile, World.log, World.called, hchk]
  · intro db1 db2 hchk hdel
    simp [UserSvc.DeleteUserProfile, World.log, World.called, hchk, hdel]

/-- Deleting `ghost`, who is not stored, fails with the check's error and
leaves the store alone; deleting `ana`, who is stored, is confirmed. -/
theorem DeleteUserProfile_contract_example :
    ((memSvc.DeleteUserProfile ⟨"ghost"⟩ anaWorld).1 = .ret none (some (.store sqlErrNoRows)) ∧
      (memSvc.DeleteUserProfile ⟨"ghost"⟩ anaWorld).2.db = [ana]) ∧
    (memSvc.DeleteUserProfile ⟨"ana"⟩ anaWorld).1 = .ret (some
      { Success := "user has been deleted successfully", Status := "200" }) none :=
  ⟨by
      obtain ⟨h1, -, -, h4⟩ := (DeleteUserProfile_contract memSvc ⟨"ghost"⟩ anaWorld).1
        sqlErrNoRows [ana] (by decide)
      exact ⟨h1, h4⟩,
    (DeleteUserProfile_contract memSvc ⟨"ana"⟩ anaWorld).2 [ana] [] (by decide) (by decide)⟩

/-- C8, as stated, fails for the categories: when the store reports no rows
the handler returns the error "no Categories found", when the store fails in
another way it returns "error while querying the categories", and the two
differ. -/
theorem GetAllCategories_no_rows_is_distinct :
    ((⟨failingDb sqlErrNoRows⟩ : UserSvc Unit).GetAllCategories ⟨(), []⟩).1
        = .ret none (some (.errorsNew "no Categories found")) ∧
      ((⟨failingDb connRefused⟩ : UserSvc Unit).GetAllCategories ⟨(), []⟩).1
        = .ret none (some (.errorsNew "error while querying the categories")) ∧
      ((⟨failingDb sqlErrNoRows⟩ : UserSvc Unit).GetAllCategories ⟨(), []⟩).1
        ≠ ((⟨failingDb connRefused⟩ : UserSvc Unit).GetAllCategories ⟨(), []⟩).1 := by
  decide

/-- C8, amended. For every failure of the store, no rows or another, the
topics listing returns no result and the one error "error while querrying the
topics". The categories listing returns no result and the error "no
Categories found" when the store reports no rows, "error while querying the
categories" for any other failure. None of these errors carries a gRPC
status: the code of each is Unknown. -/
theorem listing_errors {σ : Type} (us : UserSvc σ) (w : World σ) :
    (∀ res err db, us.dbConn.GetAllTopicsFromDb w.db = ((res, some err), db) →
      (us.GetAllTopics w).1
        = .ret none (some (.errorsNew "error while querrying the topics"))) ∧
    (∀ res err db, us.dbConn.GetAllCategories w.db = ((res, some err), db) →
      (us.GetAllCategories w).1 = .ret none (some (.errorsNew
        (if err.isErrNoRows then "no Categories found"
          else "error while querying the categories")))) ∧
    (∀ text, (GoError.errorsNew text).Code = codes.Unknown) := by
  refine ⟨?_, ?_, ?_⟩
  · intro res err db h
    simp [UserSvc.GetAllTopics, World.log, World.called, h]
  · intro res err db h
    by_cases hn : err.isErrNoRows = true <;>
      simp [UserSvc.GetAllCategories, World.log, World.called, h, hn]
  · intro text
    rfl

/-- The topics listing on a store without rows and on a store that cannot be
reached: the same error in both cases. -/
theorem listing_errors_example :
    ((⟨failingDb sqlErrNoRows⟩ : UserSvc Unit).GetAllTopics ⟨(), []⟩).1
        = .ret none (some (.errorsNew "error while querrying the topics")) ∧
      ((⟨failingDb connRefused⟩ : UserSvc Unit).GetAllTopics ⟨(), []⟩).1
        = .ret none (some (.errorsNew "error while querrying the topics")) ∧
      ((⟨failingDb sqlErrNoRows⟩ : UserSvc Unit).GetAllCategories ⟨(), []⟩).1
        = .ret none (some (.errorsNew "no Categories found")) :=
  ⟨(listing_errors ⟨failingDb sqlErrNoRows⟩ ⟨(), []⟩).1 none sqlErrNoRows () rfl,
    (listing_errors ⟨failingDb connRefused⟩ ⟨(), []⟩).1 none connRefused () rfl,
    (listing_errors ⟨failingDb sqlErrNoRows⟩ ⟨(), []⟩).2.1 none sqlErrNoRows () rfl⟩

/-- Merge, persist and answer on `nil`, when some field of the request differs
from its sentinel: the merge panics and nothing else happens. -/
theorem mapAndUpdate_nil_panics {σ : Type} (us : UserSvc σ) (env : Env)
    (req : pb.UpdateUserProfileReq) (w : World σ)
    (hf : req.Username ≠ "" ∨ req.FirstName ≠ "" ∨ req.LastName ≠ "" ∨ req.Bio ≠ "" ∨
      req.DateOfBirth ≠ "" ∨ req.Address ≠ "" ∨ req.ContactNumber ≠ "0") :
    UserSvc.UpdateUserProfile.mapAndUpdate us env req none w
      = (.panic Panic.nilDereference, w) := by
  unfold UserSvc.UpdateUserProfile.mapAndUpdate
  rw [MapUserUpdateData_nil, if_pos hf]

/-- Merge, persist and answer on `nil`, when every field of the request is its
sentinel: the store's update is called with `nil`; its error is returned, and
without one the handler panics on reading the username. -/
theorem mapAndUpdate_nil_sentinels {σ : Type} (us : UserSvc σ) (env : Env)
    (req : pb.UpdateUserProfileReq) (w : World σ) (err : Option StoreError) (db : σ)
    (hf : ¬ (req.Username ≠ "" ∨ req.FirstName ≠ "" ∨ req.LastName ≠ "" ∨ req.Bio ≠ "" ∨
      req.DateOfBirth ≠ "" ∨ req.Address ≠ "" ∨ req.ContactNumber ≠ "0"))
    (hupd : us.dbConn.UpdateUserProfile req.Username none w.db = (err, db)) :
    UserSvc.UpdateUserProfile.mapAndUpdate us env req none w
      = ((match err with
          | some e => .ret none (some (.store e))
          | none => .panic Panic.nilDereference),
        (w.log Level.info "mappedDBUser: %+v\n").called
          (Event.UpdateUserProfile req.Username none) db) := by
  unfold UserSvc.UpdateUserProfile.mapAndUpdate
  rw [MapUserUpdateData_nil, if_neg hf]
  cases err <;> simp [World.log, World.called, hupd]

/-- With `Partial = false` and a username that passes the existence check, the
update handler goes to the merge with `nil`, without fetching a profile. -/
theorem UpdateUserProfile_not_partial_step {σ : Type} (us : UserSvc σ) (env : Env)
    (req : pb.UpdateUserProfileReq) (w : World σ) (db1 : σ) (hP : req.Partial = false)
    (hchk : us.dbConn.CheckIfUsernameExist req.Username w.db = (none, db1)) :
    us.UpdateUserProfile env req w
      = UserSvc.UpdateUserProfile.mapAndUpdate us env req none
          ((w.log Level.info "user %s is updating the profile.").called
            (Event.CheckIfUsernameExist req.Username) db1) := by
  simp [UserSvc.UpdateUserProfile, World.log, World.called, hchk, hP]

/-- A username that fails the existence check gets the check's error from the
update handler. -/
theorem UpdateUserProfile_absent {σ : Type} (us : UserSvc σ) (env : Env)
    (req : pb.UpdateUserProfileReq) (w : World σ) (err : StoreError) (db1 : σ)
    (hchk : us.dbConn.CheckIfUsernameExist req.Username w.db = (some err, db1)) :
    (us.UpdateUserProfile env req w).1 = .ret none (some (.store err)) := by
  simp [UserSvc.UpdateUserProfile, World.log, World.called, hchk]

/-- C10. An update request with `Partial = false` never gets a success
summary. When its username passes the existence check, no stored profile is
fetched and the merge runs on `nil`: if some field of the request differs from
its sentinel the handler panics in the merge, before the store's update is
called; otherwise the merge returns `nil`, the store's update is called with
`nil`, and the handler returns the store's error when there is one and panics
on reading the username of `nil` when there is none. -/
theorem UpdateUserProfile_full_never_succeeds {σ : Type} (us : UserSvc σ) (env : Env)
    (req : pb.UpdateUserProfileReq) (w : World σ) (hP : req.Partial = false) :
    (∀ res err, (us.UpdateUserProfile env req w).1 ≠ .ret (some res) err) ∧
    (∀ db1, us.dbConn.CheckIfUsernameExist req.Username w.db = (none, db1) →
      (∀ u, Event.GetMyProfile u ∉
        (us.UpdateUserProfile env req w).2.trace.drop w.trace.length) ∧
      ((req.Username ≠ "" ∨ req.FirstName ≠ "" ∨ req.LastName ≠ "" ∨ req.Bio ≠ "" ∨
          req.DateOfBirth ≠ "" ∨ req.Address ≠ "" ∨ req.ContactNumber ≠ "0") →
        (us.UpdateUserProfile env req w).1 = .panic Panic.nilDereference ∧
        ∀ u x, Event.UpdateUserProfile u x ∉
          (us.UpdateUserProfile env req w).2.trace.drop w.trace.length) ∧
      (¬ (req.Username ≠ "" ∨ req.FirstName ≠ "" ∨ req.LastName ≠ "" ∨ req.Bio ≠ "" ∨
          req.DateOfBirth ≠ "" ∨ req.Address ≠ "" ∨ req.ContactNumber ≠ "0") →
        ∀ err db2, us.dbConn.UpdateUserProfile req.Username none db1 = (err, db2) →
          Event.UpdateUserProfile req.Username none ∈
            (us.UpdateUserProfile env req w).2.trace.drop w.trace.length ∧
          (us.UpdateUserProfile env req w).1 =
            match err with
            | some e => .ret none (some (.store e))
            | none => .panic Panic.nilDereference)) := by
  constructor
  · intro res err
    rcases hchk : us.dbConn.CheckIfUsernameExist req.Username w.db with ⟨_ | e, db1⟩
    · rw [UpdateUserProfile_not_partial_step us env req w db1 hP hchk]
      by_cases hf : req.Username ≠ "" ∨ req.FirstName ≠ "" ∨ req.LastName ≠ "" ∨
          req.Bio ≠ "" ∨ req.DateOfBirth ≠ "" ∨ req.Address ≠ "" ∨ req.ContactNumber ≠ "0"
      · rw [mapAndUpdate_nil_panics us env req _ hf]
        simp
      · rcases hupd : us.dbConn.UpdateUserProfile req.Username none db1 with ⟨_ | e, db2⟩
        · rw [mapAndUpdate_nil_sentinels us env req _ none db2 hf hupd]
          simp
        · rw [mapAndUpdate_nil_sentinels us env req _ (some e) db2 hf hupd]
          simp
    · rw [UpdateUserProfile_absent us env req w e db1 hchk]
      simp
  · intro db1 hchk
    rw [UpdateUserProfile_not_partial_step us env req w db1 hP hchk]
    by_cases hf : req.Username ≠ "" ∨ req.FirstName ≠ "" ∨ req.LastName ≠ "" ∨
        req.Bio ≠ "" ∨ req.DateOfBirth ≠ "" ∨ req.Address ≠ "" ∨ req.ContactNumber ≠ "0"
    · rw [mapAndUpdate_nil_panics us env req _ hf]
      refine ⟨?_, fun _ => ⟨rfl, ?_⟩, fun h => absurd hf h⟩ <;>
        simp [World.log, World.called]
    · rcases hupd : us.dbConn.UpdateUserProfile req.Username none db1 with ⟨err, db2⟩
      rw [mapAndUpdate_nil_sentinels us env req _ err db2 hf hupd]
      refine ⟨?_, fun h => absurd h hf, ?_⟩
      · simp [World.log, World.called]
      · intro _ err2 db3 h
        simp only [Prod.mk.injEq] at h
        obtain ⟨h1, -⟩ := h
        subst h1
        cases err <;> simp [World.log, World.called]

/-- The full update of `ana`, who is stored, panics in the merge, and the
store's update is not called. -/
theorem UpdateUserProfile_full_never_succeeds_example :
    fullUpdate.Partial = false ∧
      memSvc.dbConn.CheckIfUsernameExist fullUpdate.Username anaWorld.db = (none, [ana]) ∧
      (memSvc.UpdateUserProfile sampleEnv fullUpdate anaWorld).1
        = .panic Panic.nilDereference ∧
      ∀ u x, Event.UpdateUserProfile u x ∉
        (memSvc.UpdateUserProfile sampleEnv fullUpdate anaWorld).2.trace.drop
          anaWorld.trace.length :=
  ⟨rfl, by decide,
    ((UpdateUserProfile_full_never_succeeds memSvc sampleEnv fullUpdate anaWorld rfl).2 [ana]
      (by decide)).2.1 (Or.inl (by decide))⟩

/-- A request with `Partial = false` and the sentinel in every field, on a
store that accepts every call: the handler panics after the store's update.
On the in-memory store, which refuses to write `nil`, it returns the store's
error. -/
theorem UpdateUserProfile_full_sentinels_example :
    ((⟨acceptingDb⟩ : UserSvc Unit).UpdateUserProfile sampleEnv
        { noChange with Partial := false } ⟨(), []⟩).1 = .panic Panic.nilDereference ∧
      (memSvc.UpdateUserProfile sampleEnv { noChange with Partial := false }
        ⟨[{ ana with Username := "" }], []⟩).1 = .ret none (some (.store connRefused)) := by
  decide

/-- A partial update of `ana`, by contrast, is answered with the summary that
holds her username, and the store holds the merged record afterwards. -/
theorem UpdateUserProfile_partial_example :
    (memSvc.UpdateUserProfile sampleEnv { fullUpdate with Partial := true } anaWorld).1
        = .ret (some { Username := "ana" }) none ∧
      (memSvc.UpdateUserProfile sampleEnv { fullUpdate with Partial := true } anaWorld).2.db
        = [{ ana with Bio := ⟨"new", true⟩ }] := by
  decide

end Monkeys
